import Mathlib

/-!
# Verification of the gemini-api client library

A shallow embedding of the repository's data model and session logic:
the model catalog (`param.rs`), the response/error schemas
(`body/response.rs`, `body/error.rs`), the model-listing operation
(`lib.rs`), and the session send operations (`model/mod.rs`,
`model/blocking.rs`).

The HTTP transport is external to the repository; each send operation is
therefore parameterised by the outcome of its HTTP exchange (`Exchange`),
which records exactly the distinctions the source branches on: transport
failure, success status with a parseable or unparseable body, and
non-success status with a parseable or unparseable error envelope.
Rust panics (out-of-bounds indexing, `unwrap` on an error) are modelled
explicitly by the `Outcome.panicked` constructor, distinct from `bail!` /
propagated typed errors (`Outcome.error`).
-/

namespace GeminiApi

/-! ## Model catalog (`src/param.rs`) -/

/-- `LanguageModel` from `src/param.rs`. -/
inductive LanguageModel where
  | Gemini1_0Pro
  | Gemini1_5Pro
  | Gemini1_5Flash
  | Gemini2_0FlashExp
  | Custom (s : String)
deriving DecidableEq, Repr

/-- The `Display` impl for `LanguageModel` (`src/param.rs`, `fmt`). -/
def LanguageModel.render : LanguageModel → String
  | .Gemini1_0Pro => "models/gemini-1.0-pro"
  | .Gemini1_5Pro => "models/gemini-1.5-pro"
  | .Gemini1_5Flash => "models/gemini-1.5-flash"
  | .Gemini2_0FlashExp => "models/gemini-2.0-flash-exp"
  | .Custom s => s

/-- The `From<String> for LanguageModel` impl (`src/param.rs`). -/
def LanguageModel.fromString : String → LanguageModel
  | "models/gemini-1.0-pro" => .Gemini1_0Pro
  | "models/gemini-1.5-pro" => .Gemini1_5Pro
  | "models/gemini-1.5-flash" => .Gemini1_5Flash
  | "models/gemini-2.0-flash-exp" => .Gemini2_0FlashExp
  | s => .Custom s

/-- `Default` for `LanguageModel` (`#[default]` on `Gemini2_0FlashExp`). -/
def LanguageModel.defaultModel : LanguageModel := .Gemini2_0FlashExp

/-! ## Closed wire vocabularies (`src/body/response.rs`)

The serde derives on these enums serialize each variant to the fixed
token given by its `#[serde(rename = "...")]` attribute, and error on
any token matching no variant. `encode` and `decode` embed exactly
that: `decode` returns `none` where serde would raise a hard
deserialization error. -/

/-- `FinishReason` from `src/body/response.rs`. -/
inductive FinishReason where
  | FinishReasonUnspecified
  | Stop
  | MaxTokens
  | Safety
  | Recitation
  | Language
  | Other
  | Blocklist
  | ProhibitedContent
  | Spii
  | MalformedFunctionCall
deriving DecidableEq, Repr

def FinishReason.encode : FinishReason → String
  | .FinishReasonUnspecified => "FINISH_REASON_UNSPECIFIED"
  | .Stop => "STOP"
  | .MaxTokens => "MAX_TOKENS"
  | .Safety => "SAFETY"
  | .Recitation => "RECITATION"
  | .Language => "LANGUAGE"
  | .Other => "OTHER"
  | .Blocklist => "BLOCKLIST"
  | .ProhibitedContent => "PROHIBITED_CONTENT"
  | .Spii => "SPII"
  | .MalformedFunctionCall => "MALFORMED_FUNCTION_CALL"

def FinishReason.decode : String → Option FinishReason
  | "FINISH_REASON_UNSPECIFIED" => some .FinishReasonUnspecified
  | "STOP" => some .Stop
  | "MAX_TOKENS" => some .MaxTokens
  | "SAFETY" => some .Safety
  | "RECITATION" => some .Recitation
  | "LANGUAGE" => some .Language
  | "OTHER" => some .Other
  | "BLOCKLIST" => some .Blocklist
  | "PROHIBITED_CONTENT" => some .ProhibitedContent
  | "SPII" => some .Spii
  | "MALFORMED_FUNCTION_CALL" => some .MalformedFunctionCall
  | _ => none

/-- `HarmProbability` from `src/body/response.rs`. -/
inductive HarmProbability where
  | HarmProbabilityUnspecified
  | Negligible
  | Low
  | Medium
  | High
deriving DecidableEq, Repr

def HarmProbability.encode : HarmProbability → String
  | .HarmProbabilityUnspecified => "HARM_PROBABILITY_UNSPECIFIED"
  | .Negligible => "NEGLIGIBLE"
  | .Low => "LOW"
  | .Medium => "MEDIUM"
  | .High => "HIGH"

def HarmProbability.decode : String → Option HarmProbability
  | "HARM_PROBABILITY_UNSPECIFIED" => some .HarmProbabilityUnspecified
  | "NEGLIGIBLE" => some .Negligible
  | "LOW" => some .Low
  | "MEDIUM" => some .Medium
  | "HIGH" => some .High
  | _ => none

/-- `BlockReason` from `src/body/response.rs`. -/
inductive BlockReason where
  | BlockReasonUnspecified
  | Safety
  | Other
  | Blocklist
  | ProhibitedContent
deriving DecidableEq, Repr

def BlockReason.encode : BlockReason → String
  | .BlockReasonUnspecified => "BLOCK_REASON_UNSPECIFIED"
  | .Safety => "SAFETY"
  | .Other => "OTHER"
  | .Blocklist => "BLOCKLIST"
  | .ProhibitedContent => "PROHIBITED_CONTENT"

def BlockReason.decode : String → Option BlockReason
  | "BLOCK_REASON_UNSPECIFIED" => some .BlockReasonUnspecified
  | "SAFETY" => some .Safety
  | "OTHER" => some .Other
  | "BLOCKLIST" => some .Blocklist
  | "PROHIBITED_CONTENT" => some .ProhibitedContent
  | _ => none

/-! ## Content model

`Content`, `Part`, `Role` live in `body/mod.rs`, which is not in the
source tree; they are modelled from the spec. -/

/-- Modelled from the spec: `Role` from the missing `body/mod.rs` — a turn's
role is `user` or `model` (spec section 3, "an optional Role (`user` or
`model`)"). -/
inductive Role where
  | user
  | model
deriving DecidableEq, Repr

/-- Modelled from the spec: `Part` from the missing `body/mod.rs` —
"polymorphic over variants {Text(string), InlineData(mime type, base64
payload)}" (spec section 3). Field names follow the source's uses
`Part::Text(s)` and `Part::InlineData { mime_type, data }`. -/
inductive Part where
  | Text (s : String)
  | InlineData (mime_type : String) (data : String)
deriving DecidableEq, Repr

/-- Modelled from the spec: `Content` from the missing `body/mod.rs` — "an
ordered sequence of Parts plus an optional Role" (spec section 3). Field
names follow the source's uses `Content { parts, role }`. -/
structure Content where
  parts : List Part
  role : Option Role
deriving DecidableEq, Repr

/-! ## Generation configuration and request envelope

`GenerationConfig` and `GeminiRequestBody` live in `body/request.rs`,
which is not in the source tree; they are modelled from the spec
(sections 3 and 6) and pinned by the in-repo test `convert_to_json`
(`src/lib.rs`), which asserts that the `Default` value serializes to
`{"responseMimeType":"text/plain","maxOutputTokens":8192,"temperature":1.0,"topP":0.95,"topK":64}`.
The numeric wire values are embedded exactly: JSON integer literals as
`Int`, JSON decimal literals as `Rat` (the decimals that occur — 1.0 and
0.95 — are exactly representable, so no floating-point rounding is in
play). -/

/-- A JSON value as far as the `GenerationConfig` object needs: string,
integer literal, or decimal literal. -/
inductive JVal where
  | str (s : String)
  | int (n : Int)
  | num (q : Rat)
deriving DecidableEq, Repr

/-- Modelled from the spec: `GenerationConfig` from the missing
`body/request.rs` — recognized options "{response MIME type, max output
tokens, temperature, top-p, top-k}; all optional, serialized only when
present" (spec section 3), wire names from spec section 6. -/
structure GenerationConfig where
  response_mime_type : Option String
  max_output_tokens : Option Int
  temperature : Option Rat
  top_p : Option Rat
  top_k : Option Int
deriving DecidableEq, Repr

/-- Modelled from the spec: the `Default` impl for `GenerationConfig` in the
missing `body/request.rs` — "defaults mirror the API's documented defaults"
(spec section 3), pinned by the in-repo test `convert_to_json`
(`src/lib.rs` lines 37-52). -/
def GenerationConfig.defaultConfig : GenerationConfig :=
  { response_mime_type := some "text/plain"
    max_output_tokens := some 8192
    temperature := some 1
    top_p := some (19 / 20)
    top_k := some 64 }

/-- Serialization of `GenerationConfig` to a JSON object (a key/value list):
each absent optional field is omitted entirely (`#[serde(skip_serializing_if
= "Option::is_none")]`-style, per spec section 4.2), each present field is
emitted under its wire name. -/
def GenerationConfig.toJson (c : GenerationConfig) : List (String × JVal) :=
  (match c.response_mime_type with
    | some s => [("responseMimeType", JVal.str s)] | none => []) ++
  (match c.max_output_tokens with
    | some n => [("maxOutputTokens", JVal.int n)] | none => []) ++
  (match c.temperature with
    | some q => [("temperature", JVal.num q)] | none => []) ++
  (match c.top_p with
    | some q => [("topP", JVal.num q)] | none => []) ++
  (match c.top_k with
    | some n => [("topK", JVal.int n)] | none => [])

/-- Read an optional string field: a missing key deserializes to `none`, a
present key must hold a string (serde's treatment of `Option` fields). -/
def readStr : Option JVal → Option (Option String)
  | none => some none
  | some (JVal.str s) => some (some s)
  | some _ => none

/-- Read an optional integer field. -/
def readInt : Option JVal → Option (Option Int)
  | none => some none
  | some (JVal.int n) => some (some n)
  | some _ => none

/-- Read an optional decimal field. -/
def readNum : Option JVal → Option (Option Rat)
  | none => some none
  | some (JVal.num q) => some (some q)
  | some _ => none

/-- Deserialization of `GenerationConfig` from a JSON object: each field is
looked up by its wire name; a missing key yields `none` for that field, a
key of the wrong shape is a deserialization error. -/
def GenerationConfig.fromJson (kvs : List (String × JVal)) : Option GenerationConfig := do
  let rmt ← readStr (kvs.lookup "responseMimeType")
  let mot ← readInt (kvs.lookup "maxOutputTokens")
  let t ← readNum (kvs.lookup "temperature")
  let tp ← readNum (kvs.lookup "topP")
  let tk ← readInt (kvs.lookup "topK")
  some { response_mime_type := rmt, max_output_tokens := mot,
         temperature := t, top_p := tp, top_k := tk }

/-- Modelled from the spec: `HarmCategory` from the missing
`body/request.rs`. No claim depends on its variants; it is embedded as its
wire token. -/
structure HarmCategory where
  token : String
deriving DecidableEq, Repr

/-- Modelled from the spec: `GeminiRequestBody` from the missing
`body/request.rs` — the request envelope "contents array, optional
generationConfig, optional systemInstruction" (spec section 6). -/
structure GeminiRequestBody where
  contents : List Content
  generation_config : Option GenerationConfig
  system_instruction : Option Content
deriving DecidableEq, Repr

/-! ## Response schema (`src/body/response.rs`) -/

/-- `SafetyRating` from `src/body/response.rs`. -/
structure SafetyRating where
  category : HarmCategory
  probability : HarmProbability
  blocked : Option Bool
deriving DecidableEq, Repr

/-- `Candidate1` (logprobs candidate) from `src/body/response.rs`. -/
structure Candidate1 where
  token : Option String
  token_id : Option Int
  log_probability : Option Float
deriving Repr

/-- `TopCandidates` from `src/body/response.rs`. -/
structure TopCandidates where
  candidates : List Candidate1
deriving Repr

/-- `LogprobsResult` from `src/body/response.rs`. -/
structure LogprobsResult where
  top_candidates : List TopCandidates
  chosen_candidates : List Candidate1
deriving Repr

/-- `CitationSource` from `src/body/response.rs`. -/
structure CitationSource where
  start_index : Option Int
  end_index : Option Int
  uri : Option String
  license : Option String
deriving DecidableEq, Repr

/-- `CitationMetadata` from `src/body/response.rs`. -/
structure CitationMetadata where
  citation_sources : List CitationSource
deriving DecidableEq, Repr

/-- `GroundingPassageId` from `src/body/response.rs`. -/
structure GroundingPassageId where
  passage_id : String
  part_index : Int
deriving DecidableEq, Repr

/-- `SemanticRetrieverChunk` from `src/body/response.rs`. -/
structure SemanticRetrieverChunk where
  source : String
  chunk : String
deriving DecidableEq, Repr

/-- `AttributionSourceId` from `src/body/response.rs`. -/
structure AttributionSourceId where
  grounding_passage : GroundingPassageId
  semantic_retriever_chunk : SemanticRetrieverChunk
deriving DecidableEq, Repr

/-- `GroundingAttribution` from `src/body/response.rs`. -/
structure GroundingAttribution where
  source_id : AttributionSourceId
  content : Content
deriving DecidableEq, Repr

/-- `Candidate` from `src/body/response.rs`. -/
structure Candidate where
  content : Content
  finish_reason : Option FinishReason
  safety_ratings : Option (List SafetyRating)
  citation_metadata : Option CitationMetadata
  token_count : Option Int
  grounding_attributions : Option (List GroundingAttribution)
  index : Option Int
  avg_logprobs : Option Float
  logprobs_result : Option LogprobsResult
deriving Repr

/-- `PromptFeedback` from `src/body/response.rs`. -/
structure PromptFeedback where
  block_reason : Option BlockReason
  safety_ratings : SafetyRating
deriving DecidableEq, Repr

/-- `UsageMetadata` from `src/body/response.rs`. -/
structure UsageMetadata where
  prompt_token_count : Int
  cached_content_token_count : Option Int
  candidates_token_count : Int
  total_token_count : Int
deriving DecidableEq, Repr

/-- `GenerateContentResponse` from `src/body/response.rs`. -/
structure GenerateContentResponse where
  candidates : List Candidate
  prompt_feedback : Option PromptFeedback
  usage_metadata : UsageMetadata
deriving Repr

/-- `Model` from `src/body/response.rs`. -/
structure Model where
  name : String
  base_model_id : Option String
  version : String
  display_name : String
  description : String
  input_token_limit : Int
  output_token_limit : Int
  supported_generation_methods : List String
  temperature : Option Float
  max_temperature : Option Float
  top_p : Option Float
  top_k : Option Int
deriving Repr

/-- `ModelsResponse` from `src/body/response.rs`. -/
structure ModelsResponse where
  models : List Model
  next_page_token : Option String
deriving Repr

/-! ## Error envelope (`src/body/error.rs`) -/

/-- `Metadata` from `src/body/error.rs`. -/
structure Metadata where
  service : String
deriving DecidableEq, Repr

/-- `Detail` from `src/body/error.rs`. -/
structure Detail where
  type0 : String
  reason : Option String
  domain : Option String
  metadata : Option Metadata
deriving DecidableEq, Repr

/-- `Error` from `src/body/error.rs`. -/
structure Error where
  code : Int
  message : String
  status : Option String
  details : Option (List Detail)
deriving DecidableEq, Repr

/-- `GenerateContentResponseError` from `src/body/error.rs`. -/
structure GenerateContentResponseError where
  error : Error
deriving DecidableEq, Repr

/-! ## Session state and send operations (`src/model/mod.rs`)

The async variant (`mod.rs`, `not(feature = "blocking")`) is embedded; the
blocking variant (`blocking.rs`) duplicates the same logic, except for the
stateless branch of `send_image_message`, whose one divergence (an
`unwrap` where the async code uses `?`) is embedded separately below. -/

/-- The possible results of a Rust call in this codebase: a value, a typed
`anyhow` error with its message (`bail!` or a propagated `?`), or a panic. -/
inductive Outcome (α : Type) where
  | ok (val : α)
  | error (msg : String)
  | panicked (msg : String)
deriving Repr

/-- The outcome of the HTTP exchange with the generation endpoint, recording
exactly the distinctions the source branches on: `send()` failing
(transport error, propagated by `?`); a success status whose body parses as
`GenerateContentResponse` or fails to parse (`serde_json::from_str` error
propagated by `?`); a non-success status whose body parses as the error
envelope or fails to parse. -/
inductive Exchange where
  | transportErr (msg : String)
  | ok (resp : GenerateContentResponse)
  | okUnparsable (msg : String)
  | err (e : GenerateContentResponseError)
  | errUnparsable (msg : String)

/-- `GEMINI_API_URL` from `src/model/mod.rs`. -/
def GEMINI_API_URL : String := "https://generativelanguage.googleapis.com/v1beta/"

/-- The `Gemini` struct from `src/model/mod.rs` (the `reqwest` client handle
carries no observable state and is dropped). -/
structure Gemini where
  key : String
  model : LanguageModel
  contents : List Content
  options : GenerationConfig
  system_instruction : Option String
  conversation : Bool
  url : String
deriving Repr

/-- `Gemini::new` from `src/model/mod.rs`. -/
def Gemini.new (key : String) (model : LanguageModel) : Gemini :=
  { key, model
    contents := []
    options := GenerationConfig.defaultConfig
    system_instruction := none
    conversation := false
    url := GEMINI_API_URL ++ model.render ++ ":generateContent" }

/-- `Gemini::rebuild` from `src/model/mod.rs` (lines 71-84): the remaining
fields come from `..Default::default()` except `conversation`, which is set
to `true`. -/
def Gemini.rebuild (key : String) (model : LanguageModel) (contents : List Content)
    (options : GenerationConfig) : Gemini :=
  { key, model, contents, options
    system_instruction := none
    conversation := true
    url := GEMINI_API_URL ++ model.render ++ ":generateContent" }

/-- `Gemini::set_system_instruction` from `src/model/mod.rs`. -/
def Gemini.set_system_instruction (g : Gemini) (instruction : String) : Gemini :=
  { g with system_instruction := some instruction }

/-- `Gemini::set_options` from `src/model/mod.rs`. -/
def Gemini.set_options (g : Gemini) (options : GenerationConfig) : Gemini :=
  { g with options := options }

/-- `Gemini::start_chat` from `src/model/mod.rs`. -/
def Gemini.start_chat (g : Gemini) (contents : List Content) : Gemini :=
  { g with contents := contents, conversation := true }

/-- `Gemini::build_request_body` from `src/model/mod.rs` (lines 92-102). -/
def Gemini.build_request_body (g : Gemini) (contents : List Content) : GeminiRequestBody :=
  { contents
    generation_config := some g.options
    system_instruction := g.system_instruction.map fun s =>
      { parts := [Part.Text s], role := none } }

/-- The shared success-path extraction
`response.candidates[0].content.parts[0]`: Rust's `Index` on `Vec` panics
when the candidate list (or the first candidate's part list) is empty. -/
def firstPart (r : GenerateContentResponse) : Outcome Part :=
  match r.candidates with
  | [] => .panicked "index out of bounds: the len is 0 but the index is 0"
  | c :: _ =>
    match c.content.parts with
    | [] => .panicked "index out of bounds: the len is 0 but the index is 0"
    | p :: _ => .ok p

/-- A user-role turn holding one text part, as built by
`send_simple_message`. -/
def userTurn (message : String) : Content :=
  { parts := [Part.Text message], role := some Role.user }

/-- A model-role turn holding one text part, as pushed on the success
path of every send operation. -/
def modelTurn (s : String) : Content :=
  { parts := [Part.Text s], role := some Role.model }

/-- `Gemini::send_message` from `src/model/mod.rs` (async, lines 392-466),
with the HTTP exchange outcome as a parameter. Returns the call's outcome
together with the state of the session after the call. -/
def Gemini.send_message (g : Gemini) (message : Content) (ex : Exchange) :
    Outcome (String × GenerateContentResponse) × Gemini :=
  if !g.conversation then
    -- stateless branch: the request body holds only `vec![message]`
    match ex with
    | .transportErr m => (.error m, g)
    | .okUnparsable m => (.error m, g)
    | .ok r =>
      match firstPart r with
      | .panicked m => (.panicked m, g)
      | .error m => (.error m, g)
      | .ok (Part.Text s) =>
        (.ok (s, r), { g with contents := g.contents ++ [modelTurn s] })
      | .ok _ => (.error "Unexpected response format", g)
    | .err e => (.error e.error.message, g)
    | .errUnparsable m => (.error m, g)
  else
    -- conversation branch: push the user turn, send the whole history
    let g1 := { g with contents := g.contents ++ [message] }
    match ex with
    | .transportErr m => (.error m, g1)
    | .okUnparsable m => (.error m, g1)
    | .ok r =>
      match firstPart r with
      | .panicked m => (.panicked m, g1)
      | .error m => (.error m, g1)
      | .ok (Part.Text s) =>
        (.ok (s, r), { g1 with contents := g1.contents ++ [modelTurn s] })
      | .ok _ => (.error "Unexpected response format", g1)
    | .err e =>
      -- non-success: pop the just-pushed user turn, surface the remote message
      (.error e.error.message, { g1 with contents := g1.contents.dropLast })
    | .errUnparsable m =>
      (.error m, { g1 with contents := g1.contents.dropLast })

/-- `Gemini::send_simple_message` from `src/model/mod.rs` (async, lines
470-550): identical to `send_message` with the user turn built from the
message string. -/
def Gemini.send_simple_message (g : Gemini) (message : String) (ex : Exchange) :
    Outcome (String × GenerateContentResponse) × Gemini :=
  if !g.conversation then
    match ex with
    | .transportErr m => (.error m, g)
    | .okUnparsable m => (.error m, g)
    | .ok r =>
      match firstPart r with
      | .panicked m => (.panicked m, g)
      | .error m => (.error m, g)
      | .ok (Part.Text s) =>
        (.ok (s, r), { g with contents := g.contents ++ [modelTurn s] })
      | .ok _ => (.error "Unexpected response format", g)
    | .err e => (.error e.error.message, g)
    | .errUnparsable m => (.error m, g)
  else
    let g1 := { g with contents := g.contents ++ [userTurn message] }
    match ex with
    | .transportErr m => (.error m, g1)
    | .okUnparsable m => (.error m, g1)
    | .ok r =>
      match firstPart r with
      | .panicked m => (.panicked m, g1)
      | .error m => (.error m, g1)
      | .ok (Part.Text s) =>
        (.ok (s, r), { g1 with contents := g1.contents ++ [modelTurn s] })
      | .ok _ => (.error "Unexpected response format", g1)
    | .err e =>
      (.error e.error.message, { g1 with contents := g1.contents.dropLast })
    | .errUnparsable m =>
      (.error m, { g1 with contents := g1.contents.dropLast })

/-! ## Image utilities (`src/utils/image.rs`) and `send_image_message` -/

/-- The formats named in the `match` of `guess_image_format`, plus
`otherFormat` for the remaining variants of the external
`image::ImageFormat` enum (the `_ => "unknown"` arm). -/
inductive ImageFormat where
  | Png | Jpeg | Gif | WebP | Pnm | Tiff | Tga | Dds | Bmp | Ico
  | Hdr | OpenExr | Farbfeld | Avif | Qoi | otherFormat
deriving DecidableEq, Repr

/-- The MIME string each arm of `guess_image_format` produces. -/
def ImageFormat.mime : ImageFormat → String
  | .Png => "image/png"
  | .Jpeg => "image/jpeg"
  | .Gif => "image/gif"
  | .WebP => "image/webp"
  | .Pnm => "image/x-portable-anymap"
  | .Tiff => "image/tiff"
  | .Tga => "image/x-tga"
  | .Dds => "image/vnd.ms-dds"
  | .Bmp => "image/bmp"
  | .Ico => "image/x-icon"
  | .Hdr => "image/vnd.radiance"
  | .OpenExr => "image/x-exr"
  | .Farbfeld => "image/x-farbfeld"
  | .Avif => "image/avif"
  | .Qoi => "image/x-qoi"
  | .otherFormat => "unknown"

/-- `guess_image_format` from `src/utils/image.rs` (lines 4-25). The
external library call `image::guess_format(buffer)` is abstracted by its
result `guess`: `some fmt` models `Ok(fmt)`, `none` models `Err` (magic
bytes matching no known format). The source calls `.unwrap()` on that
result, so an unguessable buffer is a panic, not a typed error. -/
def guess_image_format (guess : Option ImageFormat) : Outcome String :=
  match guess with
  | none => .panicked "called `Result::unwrap()` on an `Err` value"
  | some fmt => .ok fmt.mime

/-- The outcome of resolving an image source to bytes, abstracting the
path-dispatch (`starts_with("https://") || starts_with("http://")`) together
with the external file/network world: a remote fetch that succeeded (with
the format guess for the received bytes and their base64 encoding), a
remote fetch with a non-success status, a remote transport error
(propagated by `?`), a local read that succeeded, or a local read that
failed (`File::open`/`read_to_end` error, propagated by `?`). -/
inductive ImgFetch where
  | remoteOk (guess : Option ImageFormat) (base64_string : String)
  | remoteFail (status : String)
  | remoteTransportErr (msg : String)
  | fileOk (guess : Option ImageFormat) (base64_string : String)
  | fileErr (msg : String)

/-- `get_image_type_and_base64_string` from `src/utils/image.rs` (async,
lines 28-53; the blocking copy at lines 59-84 is logic-identical): resolve
the image source, bail on a non-success fetch status with the status in
the message, and otherwise pair the sniffed MIME type with the base64
payload (panicking inside `guess_image_format` on an unguessable
format). -/
def get_image_type_and_base64_string (fetch : ImgFetch) : Outcome (String × String) :=
  match fetch with
  | .remoteOk guess b64 =>
    match guess_image_format guess with
    | .ok mime => .ok (mime, b64)
    | .error m => .error m
    | .panicked m => .panicked m
  | .remoteFail status =>
    -- `status` is the `Display` rendering of the HTTP status code
    .error ("Failed to download image, status: " ++ status)
  | .remoteTransportErr m => .error m
  | .fileOk guess b64 =>
    match guess_image_format guess with
    | .ok mime => .ok (mime, b64)
    | .error m => .error m
    | .panicked m => .panicked m
  | .fileErr m => .error m

/-- `Gemini::send_image_message` from `src/model/mod.rs` (async, lines
555-674). The stateless branch resolves the image through
`get_image_type_and_base64_string`; the conversation branch inlines the
same resolution logic (source lines 608-624). Note the stateless branch
does not append anything to the history on success, while the conversation
branch appends the user turn (text part first, inline-data part second)
before the exchange and the model turn after a successful one. -/
def Gemini.send_image_message (g : Gemini) (fetch : ImgFetch) (text : String)
    (ex : Exchange) : Outcome (String × GenerateContentResponse) × Gemini :=
  if !g.conversation then
    match get_image_type_and_base64_string fetch with
    | .error m => (.error m, g)
    | .panicked m => (.panicked m, g)
    | .ok (_image_type, _base64_string) =>
      match ex with
      | .transportErr m => (.error m, g)
      | .okUnparsable m => (.error m, g)
      | .ok r =>
        match firstPart r with
        | .panicked m => (.panicked m, g)
        | .error m => (.error m, g)
        | .ok (Part.Text s) => (.ok (s, r), g)
        | .ok _ => (.error "Unexpected response format", g)
      | .err e => (.error e.error.message, g)
      | .errUnparsable m => (.error m, g)
  else
    match get_image_type_and_base64_string fetch with
    | .error m => (.error m, g)
    | .panicked m => (.panicked m, g)
    | .ok (image_type, base64_string) =>
      let g1 := { g with contents := g.contents ++
        [{ parts := [Part.Text text, Part.InlineData image_type base64_string]
           role := some Role.user }] }
      match ex with
      | .transportErr m => (.error m, g1)
      | .okUnparsable m => (.error m, g1)
      | .ok r =>
        match firstPart r with
        | .panicked m => (.panicked m, g1)
        | .error m => (.error m, g1)
        | .ok (Part.Text s) =>
          (.ok (s, r), { g1 with contents := g1.contents ++ [modelTurn s] })
        | .ok _ => (.error "Unexpected response format", g1)
      | .err e =>
        (.error e.error.message, { g1 with contents := g1.contents.dropLast })
      | .errUnparsable m =>
        (.error m, { g1 with contents := g1.contents.dropLast })

/-- The image-resolution step of the blocking `send_image_message`'s
stateless branch (`src/model/blocking.rs`, line 469):
`get_image_type_and_base64_string(image_path).unwrap()` — unlike the async
variant, a typed image-source error is unwrapped into a panic. -/
def blocking_stateless_image_resolution (fetch : ImgFetch) : Outcome (String × String) :=
  match get_image_type_and_base64_string fetch with
  | .error m => .panicked ("called `Result::unwrap()` on an `Err` value: " ++ m)
  | o => o

/-! ## Model listing (`src/lib.rs`) -/

/-- An outbound HTTP request as far as the claims describe it: the method
and the full URL (the API key travels as a query parameter inside it). -/
structure HttpRequest where
  method : String
  url : String
deriving DecidableEq, Repr

/-- The request `get_models` issues (`src/lib.rs` lines 12-15): a GET to
the model-list endpoint with the key as the `key` query parameter. -/
def get_models_request (key : String) : HttpRequest :=
  { method := "GET"
    url := "https://generativelanguage.googleapis.com/v1beta/models?key=" ++ key }

/-- The outcome of the model-list HTTP exchange: transport failure, a
success status whose body parses as `ModelsResponse` or fails to parse,
or a non-success status. -/
inductive ListExchange where
  | transportErr (msg : String)
  | ok (resp : ModelsResponse)
  | okUnparsable (msg : String)
  | err

/-- `get_models` from `src/lib.rs` (lines 11-23), with the HTTP exchange
outcome as a parameter: on success it returns `response.models`, on a
non-success status it bails with a fixed message. -/
def get_models (_key : String) (ex : ListExchange) : Outcome (List Model) :=
  match ex with
  | .transportErr m => .error m
  | .ok r => .ok r.models
  | .okUnparsable m => .error m
  | .err => .error "Failed to get models"

/-- The all-absent generation configuration: every optional field `none`. -/
def GenerationConfig.emptyConfig : GenerationConfig :=
  { response_mime_type := none, max_output_tokens := none,
    temperature := none, top_p := none, top_k := none }

/-! ## Concrete fixtures used by witnesses and counterexamples -/

/-- A concrete usage-metadata value. -/
def usageW : UsageMetadata :=
  { prompt_token_count := 5, cached_content_token_count := none,
    candidates_token_count := 7, total_token_count := 12 }

/-- A concrete successful response whose first candidate's first part is
the text `s`. -/
def respW (s : String) : GenerateContentResponse :=
  { candidates := [{
      content := { parts := [Part.Text s], role := some Role.model }
      finish_reason := some FinishReason.Stop
      safety_ratings := none
      citation_metadata := none
      token_count := none
      grounding_attributions := none
      index := some 0
      avg_logprobs := none
      logprobs_result := none }]
    prompt_feedback := none
    usage_metadata := usageW }

/-- A concrete successful response with an empty candidate list. -/
def respEmptyW : GenerateContentResponse :=
  { candidates := [], prompt_feedback := none, usage_metadata := usageW }

/-- A concrete remote error envelope. -/
def errW : GenerateContentResponseError :=
  { error := { code := 400
               message := "API key not valid. Please pass a valid API key."
               status := some "INVALID_ARGUMENT"
               details := none } }

/-- A concrete stateless session (as `Gemini::new` builds it). -/
def gStatelessW : Gemini := Gemini.new "test-key" LanguageModel.Gemini1_5Flash

/-- A concrete accumulating session holding a two-turn history (one user
turn that already received its model reply). -/
def gConvW : Gemini :=
  (Gemini.new "test-key" LanguageModel.Gemini1_5Flash).start_chat
    [userTurn "My Name is Reine", modelTurn "Nice to meet you, Reine."]

/-! ## Helper lemmas -/

/-- Popping the just-appended turn restores the original session state. -/
theorem push_pop_contents (g : Gemini) (c : Content) :
    { g with contents := (g.contents ++ [c]).dropLast } = g := by
  have h : (g.contents ++ [c]).dropLast = g.contents := by
    simp
  rw [h]

/-- The conversation branch of `send_simple_message` on a successful
exchange whose extracted first part is the text `t`: the outcome carries
`t` and the response, and the history gains the user turn and the model
turn, in that order. -/
theorem send_simple_message_conv_ok (g : Gemini) (h : g.conversation = true)
    (m t : String) (r : GenerateContentResponse)
    (hfp : firstPart r = Outcome.ok (Part.Text t)) :
    g.send_simple_message m (Exchange.ok r)
      = (Outcome.ok (t, r),
         { g with contents := g.contents ++ [userTurn m, modelTurn t] }) := by
  simp only [Gemini.send_simple_message, h, Bool.not_true, Bool.false_eq_true,
    if_false, hfp]
  simp [List.append_assoc]

end GeminiApi

/-- C8: the model-catalog conversion is total, `Custom(s)` renders to exactly
`s`, and for every string `s`, converting `s` to a `LanguageModel` and
rendering the result back yields `s` again. -/
theorem GeminiApi.languageModel_string_roundtrip :
    (∀ s : String, (GeminiApi.LanguageModel.Custom s).render = s) ∧
    (∀ s : String, (GeminiApi.LanguageModel.fromString s).render = s) := by
  refine ⟨fun s => rfl, fun s => ?_⟩
  unfold GeminiApi.LanguageModel.fromString
  split <;> rfl

/-- C9: for each closed wire vocabulary (`FinishReason`, `HarmProbability`,
`BlockReason`), decoding the encoded token of any variant yields the variant
back, and decoding succeeds only on tokens that are the encoding of some
variant — any unrecognized token is a hard decode failure (`none`). -/
theorem GeminiApi.enum_wire_tokens_roundtrip :
    (∀ v : GeminiApi.FinishReason, GeminiApi.FinishReason.decode v.encode = some v) ∧
    (∀ s : String, GeminiApi.FinishReason.decode s = none ∨
      ∃ v, GeminiApi.FinishReason.decode s = some v ∧ v.encode = s) ∧
    (∀ v : GeminiApi.HarmProbability, GeminiApi.HarmProbability.decode v.encode = some v) ∧
    (∀ s : String, GeminiApi.HarmProbability.decode s = none ∨
      ∃ v, GeminiApi.HarmProbability.decode s = some v ∧ v.encode = s) ∧
    (∀ v : GeminiApi.BlockReason, GeminiApi.BlockReason.decode v.encode = some v) ∧
    (∀ s : String, GeminiApi.BlockReason.decode s = none ∨
      ∃ v, GeminiApi.BlockReason.decode s = some v ∧ v.encode = s) := by
  refine ⟨fun v => by cases v <;> rfl, fun s => ?_,
          fun v => by cases v <;> rfl, fun s => ?_,
          fun v => by cases v <;> rfl, fun s => ?_⟩
  · unfold GeminiApi.FinishReason.decode
    split
    all_goals first
      | exact Or.inl rfl
      | exact Or.inr ⟨_, rfl, rfl⟩
  · unfold GeminiApi.HarmProbability.decode
    split
    all_goals first
      | exact Or.inl rfl
      | exact Or.inr ⟨_, rfl, rfl⟩
  · unfold GeminiApi.BlockReason.decode
    split
    all_goals first
      | exact Or.inl rfl
      | exact Or.inr ⟨_, rfl, rfl⟩

/-- C10: for every key, model, history, and options tuple, the session
returned by `rebuild` is in accumulating mode (`conversation = true`), holds
exactly the supplied history, options, key, and model, and has no system
instruction. -/
theorem GeminiApi.rebuild_restores_accumulating_session :
    ∀ (key : String) (model : GeminiApi.LanguageModel)
      (contents : List GeminiApi.Content) (options : GeminiApi.GenerationConfig),
      (GeminiApi.Gemini.rebuild key model contents options).conversation = true ∧
      (GeminiApi.Gemini.rebuild key model contents options).contents = contents ∧
      (GeminiApi.Gemini.rebuild key model contents options).options = options ∧
      (GeminiApi.Gemini.rebuild key model contents options).key = key ∧
      (GeminiApi.Gemini.rebuild key model contents options).model = model ∧
      (GeminiApi.Gemini.rebuild key model contents options).system_instruction = none :=
  fun _ _ _ _ => ⟨rfl, rfl, rfl, rfl, rfl, rfl⟩

/-- C1: in accumulating mode, a non-success HTTP response on any of the three
send operations (with, for the image variant, a successfully resolved image
source) rolls the just-appended user turn back — the session state after the
call equals the state before it — and the returned error carries the remote
error envelope's message. -/
theorem GeminiApi.conv_failed_send_rolls_back :
    ∀ (g : GeminiApi.Gemini), g.conversation = true →
    ∀ (e : GeminiApi.GenerateContentResponseError),
      (∀ msg, g.send_simple_message msg (GeminiApi.Exchange.err e)
        = (GeminiApi.Outcome.error e.error.message, g)) ∧
      (∀ c, g.send_message c (GeminiApi.Exchange.err e)
        = (GeminiApi.Outcome.error e.error.message, g)) ∧
      (∀ fmt b64 text, g.send_image_message (GeminiApi.ImgFetch.fileOk (some fmt) b64)
          text (GeminiApi.Exchange.err e)
        = (GeminiApi.Outcome.error e.error.message, g)) ∧
      (∀ fmt b64 text, g.send_image_message (GeminiApi.ImgFetch.remoteOk (some fmt) b64)
          text (GeminiApi.Exchange.err e)
        = (GeminiApi.Outcome.error e.error.message, g)) := by
  intro g h e
  obtain ⟨key, model, contents, options, si, conv, url⟩ := g
  subst h
  refine ⟨fun msg => ?_, fun c => ?_, fun fmt b64 text => ?_, fun fmt b64 text => ?_⟩ <;>
    simp [GeminiApi.Gemini.send_simple_message, GeminiApi.Gemini.send_message,
      GeminiApi.Gemini.send_image_message, GeminiApi.get_image_type_and_base64_string,
      GeminiApi.guess_image_format]

/-- Witness for C1: on a concrete accumulating session with a two-turn
history, a failed second send leaves the history at length 2 and surfaces
the concrete remote message. -/
theorem GeminiApi.conv_failed_send_rolls_back_witness :
    GeminiApi.gConvW.conversation = true ∧
    GeminiApi.gConvW.contents.length = 2 ∧
    GeminiApi.gConvW.send_simple_message "Who am I" (GeminiApi.Exchange.err GeminiApi.errW)
      = (GeminiApi.Outcome.error "API key not valid. Please pass a valid API key.",
         GeminiApi.gConvW) ∧
    (GeminiApi.gConvW.send_simple_message "Who am I"
      (GeminiApi.Exchange.err GeminiApi.errW)).2.contents.length = 2 := by
  have h := (GeminiApi.conv_failed_send_rolls_back GeminiApi.gConvW rfl GeminiApi.errW).1
    "Who am I"
  refine ⟨rfl, rfl, h, ?_⟩
  rw [h]
  rfl

/-- C2 counterexample: on a concrete stateless session with empty history and
a successful response whose first candidate's first part is the text
"hello", `send_simple_message` returns "hello" but the stored history is NOT
unchanged — it gains a model-role turn. -/
theorem GeminiApi.stateless_send_mutates_history :
    (GeminiApi.gStatelessW.send_simple_message "hi"
        (GeminiApi.Exchange.ok (GeminiApi.respW "hello"))).1
      = GeminiApi.Outcome.ok ("hello", GeminiApi.respW "hello") ∧
    GeminiApi.gStatelessW.contents = [] ∧
    (GeminiApi.gStatelessW.send_simple_message "hi"
        (GeminiApi.Exchange.ok (GeminiApi.respW "hello"))).2.contents
      = [GeminiApi.modelTurn "hello"] ∧
    (GeminiApi.gStatelessW.send_simple_message "hi"
        (GeminiApi.Exchange.ok (GeminiApi.respW "hello"))).2.contents
      ≠ GeminiApi.gStatelessW.contents := by
  refine ⟨rfl, rfl, rfl, ?_⟩
  intro hcontra
  simp [GeminiApi.Gemini.send_simple_message, GeminiApi.gStatelessW,
    GeminiApi.Gemini.new, GeminiApi.firstPart, GeminiApi.respW] at hcontra

/-- C2 amended: in stateless mode, a successful response whose first
candidate's first part is the text `t` makes `send_simple_message` return
`t`, and the stored history gains exactly one model-role turn holding `t`
(the user turn is not stored; the history is not left unchanged). -/
theorem GeminiApi.stateless_send_appends_model_turn :
    ∀ (g : GeminiApi.Gemini), g.conversation = false →
    ∀ (m t : String) (r : GeminiApi.GenerateContentResponse),
      GeminiApi.firstPart r = GeminiApi.Outcome.ok (GeminiApi.Part.Text t) →
      g.send_simple_message m (GeminiApi.Exchange.ok r)
        = (GeminiApi.Outcome.ok (t, r),
           { g with contents := g.contents ++ [GeminiApi.modelTurn t] }) := by
  intro g h m t r hfp
  simp [GeminiApi.Gemini.send_simple_message, h, hfp]

/-- Witness for C2 amended: the concrete stateless session gains exactly the
model turn "hello". -/
theorem GeminiApi.stateless_send_appends_model_turn_witness :
    GeminiApi.gStatelessW.conversation = false ∧
    GeminiApi.firstPart (GeminiApi.respW "hello")
      = GeminiApi.Outcome.ok (GeminiApi.Part.Text "hello") ∧
    GeminiApi.gStatelessW.send_simple_message "hi"
        (GeminiApi.Exchange.ok (GeminiApi.respW "hello"))
      = (GeminiApi.Outcome.ok ("hello", GeminiApi.respW "hello"),
         { GeminiApi.gStatelessW with
             contents := GeminiApi.gStatelessW.contents ++ [GeminiApi.modelTurn "hello"] }) :=
  ⟨rfl, rfl,
    GeminiApi.stateless_send_appends_model_turn GeminiApi.gStatelessW rfl
      "hi" "hello" (GeminiApi.respW "hello") rfl⟩

/-- C3: in accumulating mode starting from an empty history, two successful
sends (each response's first candidate's first part being text) leave the
history with exactly 4 turns: user, model, user, model, where each model
turn holds the text extracted from the corresponding response. -/
theorem GeminiApi.conv_two_sends_accumulate_four_turns :
    ∀ (g : GeminiApi.Gemini), g.conversation = true → g.contents = [] →
    ∀ (m1 m2 t1 t2 : String) (r1 r2 : GeminiApi.GenerateContentResponse),
      GeminiApi.firstPart r1 = GeminiApi.Outcome.ok (GeminiApi.Part.Text t1) →
      GeminiApi.firstPart r2 = GeminiApi.Outcome.ok (GeminiApi.Part.Text t2) →
      ((g.send_simple_message m1 (GeminiApi.Exchange.ok r1)).2.send_simple_message
          m2 (GeminiApi.Exchange.ok r2)).2.contents
        = [GeminiApi.userTurn m1, GeminiApi.modelTurn t1,
           GeminiApi.userTurn m2, GeminiApi.modelTurn t2] := by
  intro g h hempty m1 m2 t1 t2 r1 r2 h1 h2
  rw [GeminiApi.send_simple_message_conv_ok g h m1 t1 r1 h1]
  have h' : ({ g with contents := g.contents ++ [GeminiApi.userTurn m1, GeminiApi.modelTurn t1] }
      : GeminiApi.Gemini).conversation = true := h
  rw [GeminiApi.send_simple_message_conv_ok _ h' m2 t2 r2 h2]
  simp [hempty]

/-- Witness for C3: a concrete fresh accumulating session, two concrete
successful exchanges, four turns in order. -/
theorem GeminiApi.conv_two_sends_accumulate_four_turns_witness :
    (((GeminiApi.Gemini.new "test-key" GeminiApi.LanguageModel.Gemini1_5Flash).start_chat
        []).send_simple_message "My Name is Reine"
          (GeminiApi.Exchange.ok (GeminiApi.respW "Nice to meet you, Reine."))).2.send_simple_message
        "Who am I" (GeminiApi.Exchange.ok (GeminiApi.respW "You are Reine.")) |>.2.contents
      = [GeminiApi.userTurn "My Name is Reine",
         GeminiApi.modelTurn "Nice to meet you, Reine.",
         GeminiApi.userTurn "Who am I",
         GeminiApi.modelTurn "You are Reine."] :=
  GeminiApi.conv_two_sends_accumulate_four_turns _ rfl rfl
    "My Name is Reine" "Who am I" "Nice to meet you, Reine." "You are Reine."
    (GeminiApi.respW "Nice to meet you, Reine.") (GeminiApi.respW "You are Reine.") rfl rfl

/-- C4 (the code panics where the claim and the spec require a local
"unexpected format" error): on a successful HTTP response whose candidate
list is empty, `send_simple_message` panics with an index-out-of-bounds in
both modes — `response.candidates[0]` indexes an empty `Vec`. -/
theorem GeminiApi.empty_candidate_list_panics :
    GeminiApi.gStatelessW.send_simple_message "hi" (GeminiApi.Exchange.ok GeminiApi.respEmptyW)
      = (GeminiApi.Outcome.panicked "index out of bounds: the len is 0 but the index is 0",
         GeminiApi.gStatelessW) ∧
    (GeminiApi.gConvW.send_simple_message "hi"
        (GeminiApi.Exchange.ok GeminiApi.respEmptyW)).1
      = GeminiApi.Outcome.panicked "index out of bounds: the len is 0 but the index is 0" :=
  ⟨rfl, rfl⟩

/-- C5 counterexample: on a concrete accumulating session, an image whose
magic bytes match no known format (the format guess fails) makes
`send_image_message` panic — `guess_image_format` unwraps the library
error — instead of surfacing a typed failure. -/
theorem GeminiApi.unrecognized_image_format_panics :
    (GeminiApi.gConvW.send_image_message (GeminiApi.ImgFetch.fileOk none "QUJD")
        "describe this image" (GeminiApi.Exchange.err GeminiApi.errW)).1
      = GeminiApi.Outcome.panicked "called `Result::unwrap()` on an `Err` value" ∧
    (GeminiApi.gConvW.send_image_message (GeminiApi.ImgFetch.fileOk none "QUJD")
        "describe this image" (GeminiApi.Exchange.err GeminiApi.errW)).2.contents
      = GeminiApi.gConvW.contents :=
  ⟨rfl, rfl⟩

/-- C5 amended: an unreadable local file, a failed remote fetch
(non-success status, with the status in the message), and a remote
transport error are each surfaced by `send_image_message` as a typed
failure with a human-readable message, before any request to the
generation endpoint (the result is the same for every generation
exchange), and the session history — in either mode — is unchanged; but an
unrecognized image format (a failed format guess) is a panic, not a typed
failure, and the blocking variant's stateless branch unwraps every
image-source error into a panic. -/
theorem GeminiApi.image_source_errors_surface_before_send :
    (∀ (g : GeminiApi.Gemini) (status text : String) (ex : GeminiApi.Exchange),
      g.send_image_message (GeminiApi.ImgFetch.remoteFail status) text ex
        = (GeminiApi.Outcome.error ("Failed to download image, status: " ++ status), g)) ∧
    (∀ (g : GeminiApi.Gemini) (m text : String) (ex : GeminiApi.Exchange),
      g.send_image_message (GeminiApi.ImgFetch.fileErr m) text ex
        = (GeminiApi.Outcome.error m, g)) ∧
    (∀ (g : GeminiApi.Gemini) (m text : String) (ex : GeminiApi.Exchange),
      g.send_image_message (GeminiApi.ImgFetch.remoteTransportErr m) text ex
        = (GeminiApi.Outcome.error m, g)) ∧
    (∀ (g : GeminiApi.Gemini) (b64 text : String) (ex : GeminiApi.Exchange),
      g.send_image_message (GeminiApi.ImgFetch.fileOk none b64) text ex
        = (GeminiApi.Outcome.panicked "called `Result::unwrap()` on an `Err` value", g)) ∧
    (∀ (g : GeminiApi.Gemini) (b64 text : String) (ex : GeminiApi.Exchange),
      g.send_image_message (GeminiApi.ImgFetch.remoteOk none b64) text ex
        = (GeminiApi.Outcome.panicked "called `Result::unwrap()` on an `Err` value", g)) ∧
    (∀ m : String,
      GeminiApi.blocking_stateless_image_resolution (GeminiApi.ImgFetch.fileErr m)
        = GeminiApi.Outcome.panicked
            ("called `Result::unwrap()` on an `Err` value: " ++ m)) := by
  refine ⟨fun g status text ex => ?_, fun g m text ex => ?_, fun g m text ex => ?_,
          fun g b64 text ex => ?_, fun g b64 text ex => ?_, fun m => rfl⟩ <;>
    by_cases hc : g.conversation <;>
      simp [GeminiApi.Gemini.send_image_message, hc,
        GeminiApi.get_image_type_and_base64_string, GeminiApi.guess_image_format]

/-- C6 counterexample: the all-default `GenerationConfig` does not serialize
to an object with every optional key omitted — all five keys are emitted,
each with the API's documented default value (as the in-repo test
`convert_to_json` asserts). -/
theorem GeminiApi.default_config_serialization_emits_all_keys :
    GeminiApi.GenerationConfig.defaultConfig.toJson
      = [("responseMimeType", GeminiApi.JVal.str "text/plain"),
         ("maxOutputTokens", GeminiApi.JVal.int 8192),
         ("temperature", GeminiApi.JVal.num 1),
         ("topP", GeminiApi.JVal.num (19 / 20)),
         ("topK", GeminiApi.JVal.int 64)] ∧
    GeminiApi.GenerationConfig.defaultConfig.toJson ≠ [] := by
  refine ⟨rfl, ?_⟩
  intro hcontra
  simp [GeminiApi.GenerationConfig.toJson, GeminiApi.GenerationConfig.defaultConfig]
    at hcontra

/-- C6 amended: serialization of a `GenerationConfig` omits exactly the
absent optional fields — the all-absent value serializes to the empty
object, while the all-default value emits every key at its documented
default — and for every `GenerationConfig`, deserializing the serialized
form yields a value equal to the original. -/
theorem GeminiApi.generation_config_json_roundtrip :
    (∀ c : GeminiApi.GenerationConfig,
      GeminiApi.GenerationConfig.fromJson c.toJson = some c) ∧
    GeminiApi.GenerationConfig.emptyConfig.toJson = [] := by
  refine ⟨fun c => ?_, rfl⟩
  obtain ⟨rmt, mot, t, tp, tk⟩ := c
  rcases rmt with _ | s <;> rcases mot with _ | n <;> rcases t with _ | q <;>
    rcases tp with _ | p <;> rcases tk with _ | k <;> rfl

/-- C7 counterexample: `get_models` returns the same value to its caller
whether or not the parsed envelope carried a pagination token — the
`nextPageToken` is parsed into `ModelsResponse` but discarded, so it is not
exposed to the caller of the model-listing operation. -/
theorem GeminiApi.get_models_discards_page_token :
    ({ models := [], next_page_token := some "NEXT_PAGE" } : GeminiApi.ModelsResponse).next_page_token
        ≠ ({ models := [], next_page_token := none } : GeminiApi.ModelsResponse).next_page_token ∧
    GeminiApi.get_models "test-key"
        (GeminiApi.ListExchange.ok { models := [], next_page_token := some "NEXT_PAGE" })
      = GeminiApi.Outcome.ok [] ∧
    GeminiApi.get_models "test-key"
        (GeminiApi.ListExchange.ok { models := [], next_page_token := none })
      = GeminiApi.Outcome.ok [] := by
  refine ⟨?_, rfl, rfl⟩
  simp

/-- C7 amended: `get_models` issues a GET to the model-list endpoint with
the API key as a query parameter, parses the paginated envelope, and
returns only the model list to the caller — the `nextPageToken` parsed into
the envelope is discarded by `get_models`, not returned; a non-success
status is a typed failure. -/
theorem GeminiApi.get_models_request_and_result :
    (∀ key : String, GeminiApi.get_models_request key
      = { method := "GET"
          url := "https://generativelanguage.googleapis.com/v1beta/models?key=" ++ key }) ∧
    (∀ (key : String) (r : GeminiApi.ModelsResponse),
      GeminiApi.get_models key (GeminiApi.ListExchange.ok r)
        = GeminiApi.Outcome.ok r.models) ∧
    (∀ key : String, GeminiApi.get_models key GeminiApi.ListExchange.err
      = GeminiApi.Outcome.error "Failed to get models") ∧
    (∀ (key m : String), GeminiApi.get_models key (GeminiApi.ListExchange.transportErr m)
      = GeminiApi.Outcome.error m) :=
  ⟨fun _ => rfl, fun _ _ => rfl, fun _ => rfl, fun _ _ => rfl⟩
